import Mathlib

/-!
Verification of the search-intent-analysis streaming endpoint
(`src/api/intent.js`) against its natural-language specification.

The JavaScript source is shallowly embedded: each helper function becomes a
Lean function over an explicit model of its environment (the outcomes of the
`fetch` calls it performs), and the streaming handler body becomes a function
from an environment to the list of observable actions (frames emitted on the
output stream, provider calls, and stream closure).  Machine-level concerns
(SSE byte encoding, UTF-16 vs. Unicode character counting) are abstracted in
the standard way: strings are Lean `String`s and frames carry their content
strings.
-/

namespace IntentApi

/-! ## HTTP-level model

A `fetch` call either resolves with a response (status plus body) or rejects
with a JavaScript error carrying a `name` (abort errors have
`name = "AbortError"`). -/

structure HttpResponse where
  status : Nat
  body : String
deriving DecidableEq, Repr

structure JsError where
  name : String
  msg : String
deriving DecidableEq, Repr

inductive FetchOutcome where
  | resp (r : HttpResponse)
  | exn (e : JsError)
deriving DecidableEq, Repr

/-- The `Response.ok` test of the Fetch standard: status in the range 200..299. -/
def statusOk (s : Nat) : Bool := decide (200 ≤ s ∧ s < 300)

/-- The acceptance test of `fetchWithRetry` (line 18 of `src/api/intent.js`):
`res.ok || (res.status >= 400 && res.status < 500 && res.status !== 429)`. -/
def acceptNow (s : Nat) : Bool :=
  statusOk s || decide (400 ≤ s ∧ s < 500 ∧ s ≠ 429)

deriving instance DecidableEq for Except

/-- Observable result of a `fetchWithRetry` run: the value returned (or the
error thrown) to the caller, the total number of `fetch` attempts that were
made, and the total backoff delay slept (in milliseconds) from the current
attempt onwards. -/
structure RetryTrace where
  result : Except JsError HttpResponse
  attemptsUsed : Nat
  totalDelay : Nat
deriving DecidableEq, Repr

/-- The retry loop of `fetchWithRetry` (lines 13-30), from loop index `i` on.
`attempts j` is the outcome of the `j`-th `fetch` call.  The fuel argument is
`maxRetries + 1 - i` at every call, so the `fuel = 0` case is unreachable:
the loop body always returns or throws when `i = maxRetries`. -/
def fetchGo (attempts : Nat → FetchOutcome) (maxRetries : Nat) : Nat → Nat → RetryTrace
  | i, 0 => ⟨Except.error ⟨"UnreachableFuel", ""⟩, i, 0⟩
  | i, fuel + 1 =>
    match attempts i with
    | .resp r =>
      if acceptNow r.status then ⟨Except.ok r, i + 1, 0⟩
      else if i = maxRetries then ⟨Except.ok r, i + 1, 0⟩
      else
        let rest := fetchGo attempts maxRetries (i + 1) fuel
        ⟨rest.result, rest.attemptsUsed, 1000 * (i + 1) + rest.totalDelay⟩
    | .exn e =>
      if e.name = "AbortError" then ⟨Except.error e, i + 1, 0⟩
      else if i = maxRetries then ⟨Except.error e, i + 1, 0⟩
      else
        let rest := fetchGo attempts maxRetries (i + 1) fuel
        ⟨rest.result, rest.attemptsUsed, 1000 * (i + 1) + rest.totalDelay⟩

/-- Model of `fetchWithRetry(url, options, maxRetries)`: run the retry loop from
attempt 0.  The url/options only determine the attempt outcomes, which are
passed in as `attempts`. -/
def fetchWithRetry (attempts : Nat → FetchOutcome) (maxRetries : Nat) : RetryTrace :=
  fetchGo attempts maxRetries 0 (maxRetries + 1)

/-! ## Content Extraction Stage (`fetchJinaContent`, lines 73-102) -/

/-- Outcome of the single extraction `fetch`: either a response (the handler
then reads its text), or a thrown error (network failure, or the 12-second
abort timeout). -/
inductive JinaOutcome where
  | resp (status : Nat) (text : String)
  | exn
deriving DecidableEq, Repr

def truncMarker : String := "\n\n...(truncated)"

/-- Model of `fetchJinaContent(url, apiKey)` (lines 73-102).  The API key only adds an
authorization header and does not change the observable result shape, so it
is omitted.  `url = ""` models a falsy url (line 74). -/
def fetchJinaContent (url : String) (outcome : JinaOutcome) : Option String :=
  if url = "" then none
  else
    match outcome with
    | .exn => none
    | .resp status text =>
      if statusOk status then
        some (if text.length > 35000 then text.take 35000 ++ truncMarker else text)
      else none

/-! ## Search Stage (`fetchSerperSearch`, lines 35-67) -/

structure SearchResult where
  title : String
  link : String
  snippet : String
deriving DecidableEq, Repr

/-- Outcome of the search `fetch`: a response with a status and the parsed
body's `organic` field (`none` when the field is absent from the JSON), or a
thrown error (network failure, 8-second abort timeout, or JSON parse
failure). -/
inductive SerperOutcome where
  | resp (status : Nat) (organic : Option (List SearchResult))
  | exn
deriving DecidableEq, Repr

/-- Model of `fetchSerperSearch(query, apiKey)` (lines 35-67).  Empty strings model
falsy query/apiKey (line 36).  `data.organic || []` yields the empty list
when the field is absent. -/
def fetchSerperSearch (query apiKey : String) (outcome : SerperOutcome) :
    Option (List SearchResult) :=
  if query = "" ∨ apiKey = "" then none
  else
    match outcome with
    | .exn => none
    | .resp status organic =>
      if statusOk status then some (organic.getD []) else none

/-! ## Fan-out Aggregator (handler lines 165-197)

Each concurrent task of `Promise.allSettled(contentPromises)` either
fulfills — carrying the `Option String` that `fetchJinaContent` produced for
that result — or rejects. -/

inductive TaskOutcome where
  | fulfilled (markdown : Option String)
  | rejected
deriving DecidableEq, Repr

def isFulfilled : TaskOutcome → Bool
  | .fulfilled _ => true
  | .rejected => false

/-- Line 178, `content: markdown || res.snippet`: JavaScript `||` falls back
on `null` and on the empty string. -/
def enrichedContent (res : SearchResult) (markdown : Option String) : String :=
  match markdown with
  | some m => if m = "" then res.snippet else m
  | none => res.snippet

/-- The template literal of line 187, rendering one fulfilled task at array
position `index` (so the printed number is `index + 1`), with the content
excerpt capped by `.slice(0, 2000)`. -/
def renderRef (index : Nat) (res : SearchResult) (markdown : Option String) : String :=
  "[Result #" ++ toString (index + 1) ++ "]\nTitle: " ++ res.title ++
  "\nURL: " ++ res.link ++ "\nSnippet: " ++ res.snippet ++
  "\nFull Content (Excerpt): " ++ (enrichedContent res markdown).take 2000 ++ "\n"

/-- Lines 184-190, `fetchedResults.map((p, index) => ...).filter(Boolean)`:
`index` runs over the pre-filter array, fulfilled entries render a block,
rejected entries map to `null` and are filtered out. -/
def referenceBlocksGo : Nat → List (SearchResult × TaskOutcome) → List String
  | _, [] => []
  | idx, (res, .fulfilled md) :: rest => renderRef idx res md :: referenceBlocksGo (idx + 1) rest
  | idx, (_, .rejected) :: rest => referenceBlocksGo (idx + 1) rest

def referenceBlocks (results : List SearchResult) (outcomes : List TaskOutcome) :
    List String :=
  referenceBlocksGo 0 (results.zip outcomes)

/-- The `.join("\n\n====================\n\n")` separator of line 190. -/
def refSeparator : String := "\n\n====================\n\n"

def contextHeader : String := "以下是该关键词在 Google (US) 首页的实际排名结果及内容：\n"

def fallbackSentinel : String := "（未获取到实时搜索结果，请基于您的知识库进行通用分析）"

/-- The `searchContext` value reaching the Prompt Builder (lines 156-197):
the truthiness test `searchResults && searchResults.length > 0` sends both a
`null` result and an empty list to the fallback branch; otherwise the context
is the header plus the joined reference blocks over the top 8 results. -/
def searchContext (searchResults : Option (List SearchResult))
    (outcomes : List TaskOutcome) : String :=
  match searchResults with
  | some results =>
    if 0 < results.length then
      contextHeader ++ String.intercalate refSeparator (referenceBlocks (results.take 8) outcomes)
    else fallbackSentinel
  | none => fallbackSentinel

/-! ## Upstream Relay (handler lines 256-283)

The relay loop repeatedly races the pending `reader.read()` against a fresh
15-second keep-alive timer.  Time is modelled in milliseconds: the `i`-th
upstream chunk becomes available at its arrival time, and a pending read
resolves as soon as its chunk is available (or immediately, if it already
is).  On a timer win the loop emits a keep-alive frame and re-races the
*same* pending read (`continue` without reassigning `readPromise`). -/

/-- Number of keep-alive frames emitted while one pending read (resolving at
absolute time `r`) is raced from race-start time `s`: each iteration either
consumes the read (when `r ≤ s + 15000`, the read settles no later than the
timer) or fires the timer, emits one keep-alive, and re-races from
`s + 15000`.  The fuel `r - s` bounds the iteration count (each timer win
advances `s` by 15000), so the exhaustion case is unreachable. -/
def keepAliveGo (s r : Nat) : Nat → Nat
  | 0 => 0
  | fuel + 1 => if r ≤ s + 15000 then 0 else keepAliveGo (s + 15000) r fuel + 1

def keepAlivesDuringRead (s r : Nat) : Nat := keepAliveGo s r (r - s)

/-- A frame on the output stream: a locally generated status chunk (the
`sendStatus` JSON chunks, identified by their content text), a relayed
upstream chunk, or the `: keep-alive\n\n` comment frame. -/
inductive Frame where
  | status (text : String)
  | relayed (data : String)
  | keepAlive
deriving DecidableEq, Repr

/-- An observable action of the handler's stream body: emitting a frame,
closing the output stream, or calling one of the three providers. -/
inductive Action where
  | emit (f : Frame)
  | close
  | callSearch
  | callExtract (url : String)
  | callAI
deriving DecidableEq, Repr

/-- The relay loop (lines 259-283): for each upstream chunk `(r, d)` (chunk
data `d` available at absolute time `r`), emit one keep-alive per expired
15-second window, then forward the chunk verbatim and issue the next read;
on `done` (no chunks left) break out of the loop. -/
def relayActions : Nat → List (Nat × String) → List Action
  | _, [] => []
  | now, (r, d) :: rest =>
    let rr := max now r
    List.replicate (keepAlivesDuringRead now rr) (Action.emit Frame.keepAlive) ++
      Action.emit (Frame.relayed d) :: relayActions rr rest

/-! ## The handler's stream body (lines 133-292) -/

/-- Outcome of the upstream AI request (after `fetchWithRetry` settles):
either a non-success handshake response (line 249), or a byte stream —
`chunks` are the relayed chunks with their arrival times, and `midError`
(when present) is the message of an error thrown by a read after the last
chunk, reaching the outer `catch` of line 285. -/
inductive UpstreamOutcome where
  | handshakeFail (status : Nat) (bodyText : String)
  | stream (chunks : List (Nat × String)) (midError : Option String)
deriving DecidableEq, Repr

/-- The request-scoped environment of one handler invocation: the request's
keyword (`""` models a missing keyword), the configured search API key (`""`
models an unset `SERPER_API_KEY`), and the outcomes of the provider calls. -/
structure Env where
  keyword : String
  serperKey : String
  searchOutcome : SerperOutcome
  upstream : UpstreamOutcome
deriving DecidableEq, Repr

def missingKeywordMsg : String := "> ❌ **错误：未提供关键词，分析无法开始。**\n\n"

def searchBanner (k : String) : String :=
  "> 🔍 **正在分析 Google (US) 搜索结果：** \"" ++ (k ++ "\"...\n\n")

def noSearchKeyWarning : String := "> ⚠️ **未配置搜索 API，仅能进行理论分析...**\n\n"

def captureBanner (n : Nat) : String :=
  "> 📖 **捕获 Top " ++ (toString n ++ " 排名页面，正在全网并行抓取内容...**\n\n")

def doneBanner : String := "> ✅ **数据采集完成，AI 正在构建意图分析模型...**\n\n---\n\n"

def noDataWarning : String := "> ⚠️ **未获取到实时数据，将进行通用理论分析...**\n\n---\n\n"

/-- The error status frame of line 251: `\n\n❌ **AI Error**: ${status}\n${errText}`. -/
def aiErrorMsg (status : Nat) (bodyText : String) : String :=
  "\n\n❌ **AI Error**: " ++ (toString status ++ ("\n" ++ bodyText))

/-- The error status frame of line 287: `\n\n❌ **System Error**: ${error.message}`. -/
def systemErrorMsg (m : String) : String := "\n\n❌ **System Error**: " ++ m

/-- The search results the handler works with (lines 156-163): `[]` when no
search key is configured, otherwise the value returned by
`fetchSerperSearch`. -/
def handlerSearchResults (env : Env) : Option (List SearchResult) :=
  if env.serperKey = "" then some []
  else fetchSerperSearch env.keyword env.serperKey env.searchOutcome

/-- Actions of the search/aggregation phase (lines 165-197): the capture
banner, one extraction call per top-8 result and the completion banner when
results are non-empty, else the no-real-time-data warning. -/
def midActions (env : Env) : List Action :=
  match handlerSearchResults env with
  | some results =>
    if 0 < results.length then
      Action.emit (Frame.status (captureBanner results.length)) ::
        (results.take 8).map (fun r => Action.callExtract r.link) ++
        [Action.emit (Frame.status doneBanner)]
    else [Action.emit (Frame.status noDataWarning)]
  | none => [Action.emit (Frame.status noDataWarning)]

/-- Actions preceding the AI call, on the non-missing-keyword path (lines
154-197): the search banner, then either the missing-search-key warning or
the search call, then the aggregation-phase actions. -/
def handlerPre (env : Env) : List Action :=
  Action.emit (Frame.status (searchBanner env.keyword)) ::
    (if env.serperKey = "" then [Action.emit (Frame.status noSearchKeyWarning)]
     else [Action.callSearch]) ++
    midActions env

/-- The `start(controller)` body (lines 146-290) as an action list plus a
flag recording whether the body already closed the controller (the early
returns of lines 149 and 252).  Paths: missing keyword → one error frame and
an in-body close; failed AI handshake → one AI-error frame and an in-body
close; otherwise the relay loop runs, followed by the system-error frame when
a relay error reaches the outer catch. -/
def handlerBody (env : Env) : List Action × Bool :=
  if env.keyword = "" then
    ([Action.emit (Frame.status missingKeywordMsg), Action.close], true)
  else
    match env.upstream with
    | .handshakeFail st b =>
      (handlerPre env ++
        [Action.callAI, Action.emit (Frame.status (aiErrorMsg st b)), Action.close], true)
    | .stream chunks midErr =>
      (handlerPre env ++ Action.callAI :: relayActions 0 chunks ++
        (match midErr with
         | some m => [Action.emit (Frame.status (systemErrorMsg m))]
         | none => []), false)

/-- The full observable trace of one stream execution: the body's actions,
then the `finally` block's `controller.close()` (line 289) — which succeeds
exactly when the body has not already closed the controller; a second close
throws and is swallowed by the surrounding `try`/`catch`, producing no
action. -/
def handlerStream (env : Env) : List Action :=
  (handlerBody env).1 ++ (if (handlerBody env).2 then [] else [Action.close])

def isClose : Action → Bool
  | .close => true
  | _ => false

def isProviderCall : Action → Bool
  | .callSearch => true
  | .callExtract _ => true
  | .callAI => true
  | _ => false

/-- Recognizes the two error status frames (`aiErrorMsg`, `systemErrorMsg`):
both begin with a newline, while every progress banner begins with `"> "`. -/
def isErrorStatusFrame : Action → Bool
  | .emit (.status t) => t.data.head? == some '\n'
  | _ => false

/-- The chunk data carried by a relayed frame, used to state that no
upstream byte is lost or duplicated. -/
def relayedData : Action → Option String
  | .emit (.relayed d) => some d
  | _ => none


/-- The first attempt yields a 304 response, the second a 200. -/
def attCex : Nat → FetchOutcome :=
  fun i => if i = 0 then .resp ⟨304, "not modified"⟩ else .resp ⟨200, "ok"⟩

def isRejected : TaskOutcome → Bool
  | .fulfilled _ => false
  | .rejected => true

/-- Number of rejected outcomes among the settled tasks (the K of the
claim). -/
def rejectedCount (outcomes : List TaskOutcome) : Nat :=
  outcomes.countP isRejected


/-! ## Theorems -/

/-- Claim C5 (corrected: `res.ok` accepts 2xx only, not 3xx — see
`retry304Cex`): a response whose status passes the acceptance test (2xx, or
a client error in [400,500) other than 429) is returned by the retry loop on
the very attempt that produced it, with no further attempt and no backoff
delay; a response failing the test is retried after a `1000·(i+1)` ms
backoff whenever retry budget remains. -/
theorem fetchWithRetry_accept_and_retry (attempts : Nat → FetchOutcome)
    (maxRetries i fuel : Nat) (r : HttpResponse) (hr : attempts i = .resp r) :
    (acceptNow r.status = true →
      fetchGo attempts maxRetries i (fuel + 1) = ⟨Except.ok r, i + 1, 0⟩) ∧
    (acceptNow r.status = false → i < maxRetries →
      fetchGo attempts maxRetries i (fuel + 1) =
        ⟨(fetchGo attempts maxRetries (i + 1) fuel).result,
         (fetchGo attempts maxRetries (i + 1) fuel).attemptsUsed,
         1000 * (i + 1) + (fetchGo attempts maxRetries (i + 1) fuel).totalDelay⟩) := by
  constructor
  · intro ha
    simp [fetchGo, hr, ha]
  · intro ha hi
    simp [fetchGo, hr, ha, Nat.ne_of_lt hi]

/-- Witness for C5: a 200 response on the first attempt is returned at once. -/
theorem fetchWithRetry_accept_and_retry_witness :
    fetchGo (fun _ => .resp ⟨200, "okbody"⟩) 2 0 3 = ⟨Except.ok ⟨200, "okbody"⟩, 1, 0⟩ :=
  (fetchWithRetry_accept_and_retry (fun _ => .resp ⟨200, "okbody"⟩) 2 0 2
    ⟨200, "okbody"⟩ rfl).1 rfl

/-- Counterexample to C5 as stated: a 3xx response (here 304) is *not*
returned immediately — `res.ok` is false for it and 304 is outside
[400,500), so the loop sleeps 1000 ms and retries, returning the second
attempt's 200 response. -/
theorem retry304Cex :
    fetchWithRetry attCex 2 = ⟨Except.ok ⟨200, "ok"⟩, 2, 1000⟩ ∧
    (fetchWithRetry attCex 2).attemptsUsed ≠ 1 ∧
    (fetchWithRetry attCex 2).totalDelay ≠ 0 := by
  decide

/-- Claim C8 (confirmed): an abort error thrown during any attempt `i`
propagates to the caller at once — no further attempt, no backoff delay —
whatever the remaining retry budget. -/
theorem fetchWithRetry_abort_propagates (attempts : Nat → FetchOutcome)
    (maxRetries i fuel : Nat) (e : JsError) (he : attempts i = .exn e)
    (hn : e.name = "AbortError") :
    fetchGo attempts maxRetries i (fuel + 1) = ⟨Except.error e, i + 1, 0⟩ := by
  simp [fetchGo, he, hn]

/-- Witness for C8: an abort on the first attempt of a 2-retry run. -/
theorem fetchWithRetry_abort_propagates_witness :
    fetchWithRetry (fun _ => .exn ⟨"AbortError", "The operation was aborted"⟩) 2 =
      ⟨Except.error ⟨"AbortError", "The operation was aborted"⟩, 1, 0⟩ :=
  fetchWithRetry_abort_propagates (fun _ => .exn ⟨"AbortError", "The operation was aborted"⟩)
    2 0 2 ⟨"AbortError", "The operation was aborted"⟩ rfl rfl

/-- Claim C7 (confirmed): on a successful extraction response, text longer
than 35,000 characters is returned as exactly its first 35,000 characters
followed by the truncation marker, text of at most 35,000 characters is
returned unchanged, and every failure (non-success status, thrown
timeout/network error) yields `null` rather than an exception. -/
theorem fetchJinaContent_truncates_and_degrades (u : String) (hu : u ≠ "")
    (s : Nat) (t : String) :
    (statusOk s = true → 35000 < t.length →
      fetchJinaContent u (.resp s t) = some (t.take 35000 ++ truncMarker)) ∧
    (statusOk s = true → t.length ≤ 35000 →
      fetchJinaContent u (.resp s t) = some t) ∧
    (statusOk s = false → fetchJinaContent u (.resp s t) = none) ∧
    fetchJinaContent u JinaOutcome.exn = none := by
  refine ⟨?_, ?_, ?_, ?_⟩
  · intro hs hl
    simp [fetchJinaContent, hu, hs, hl]
  · intro hs hl
    simp [fetchJinaContent, hu, hs, Nat.not_lt.mpr hl]
  · intro hs
    simp [fetchJinaContent, hu, hs]
  · simp [fetchJinaContent, hu]

/-- Witness for C7: a short text passes through unchanged, errors give null. -/
theorem fetchJinaContent_truncates_and_degrades_witness :
    fetchJinaContent "https://a.example" (.resp 200 "hi") = some "hi" ∧
    fetchJinaContent "https://a.example" JinaOutcome.exn = none :=
  ⟨(fetchJinaContent_truncates_and_degrades "https://a.example" (by decide) 200 "hi").2.1
      rfl (by decide),
   (fetchJinaContent_truncates_and_degrades "https://a.example" (by decide) 200 "hi").2.2.2⟩

/-- Claim C4 (corrected: when results exist but every extraction task is
dropped, the context is the ranked-results header with an empty reference
section, not the sentinel — see `allRejectedCex`): a `null` search result or
an empty result list yields the general-knowledge fallback sentinel, and a
non-empty result list always yields the header plus the joined reference
blocks. -/
theorem searchContext_fallback (outcomes : List TaskOutcome)
    (results : List SearchResult) :
    searchContext none outcomes = fallbackSentinel ∧
    searchContext (some []) outcomes = fallbackSentinel ∧
    (results ≠ [] →
      searchContext (some results) outcomes =
        contextHeader ++
          String.intercalate refSeparator (referenceBlocks (results.take 8) outcomes)) := by
  refine ⟨rfl, rfl, fun h => ?_⟩
  simp [searchContext, List.length_pos.mpr h]

/-- Witness for C4 (amended): one search result whose single task rejected. -/
theorem searchContext_fallback_witness :
    searchContext (some [⟨"t1", "u1", "s1"⟩]) [TaskOutcome.rejected] =
      contextHeader ++
        String.intercalate refSeparator
          (referenceBlocks (List.take 8 [⟨"t1", "u1", "s1"⟩])
            [TaskOutcome.rejected]) :=
  (searchContext_fallback [TaskOutcome.rejected] [⟨"t1", "u1", "s1"⟩]).2.2 (by decide)

/-- Counterexample to C4 as stated: one search result whose only extraction
task rejects — the context passed on is the header with an empty reference
section, not the fallback sentinel. -/
theorem allRejectedCex :
    searchContext (some [⟨"t1", "u1", "s1"⟩]) [TaskOutcome.rejected] = contextHeader ∧
    searchContext (some [⟨"t1", "u1", "s1"⟩]) [TaskOutcome.rejected] ≠ fallbackSentinel := by
  constructor
  · decide
  · decide

/-- Claim C10 (confirmed): a successful search response whose JSON body
lacks the `organic` field yields the empty list (not `null`), and the
handler's context computation sends the empty list down the same
no-real-time-data fallback path as a `null` result. -/
theorem fetchSerperSearch_missing_organic (q k : String) (hq : q ≠ "") (hk : k ≠ "")
    (s : Nat) (hs : statusOk s = true) (outcomes : List TaskOutcome) :
    fetchSerperSearch q k (.resp s none) = some [] ∧
    searchContext (fetchSerperSearch q k (.resp s none)) outcomes = fallbackSentinel ∧
    searchContext none outcomes = fallbackSentinel ∧
    (∀ up : UpstreamOutcome,
      midActions ⟨q, k, SerperOutcome.resp s none, up⟩ =
        [Action.emit (Frame.status noDataWarning)]) := by
  have h1 : fetchSerperSearch q k (.resp s none) = some [] := by
    simp [fetchSerperSearch, hq, hk, hs]
  refine ⟨h1, by rw [h1]; rfl, rfl, fun up => ?_⟩
  simp [midActions, handlerSearchResults, hk, h1]

/-- Witness for C10 at a concrete query, key and 200 response. -/
theorem fetchSerperSearch_missing_organic_witness :
    fetchSerperSearch "kw" "key" (.resp 200 none) = some [] ∧
    searchContext (fetchSerperSearch "kw" "key" (.resp 200 none)) [] = fallbackSentinel ∧
    searchContext none [] = fallbackSentinel ∧
    (∀ up : UpstreamOutcome,
      midActions ⟨"kw", "key", SerperOutcome.resp 200 none, up⟩ =
        [Action.emit (Frame.status noDataWarning)]) :=
  fetchSerperSearch_missing_organic "kw" "key" (by decide) (by decide) 200 rfl []

theorem referenceBlocksGo_length (l : List (SearchResult × TaskOutcome)) :
    ∀ idx, (referenceBlocksGo idx l).length = l.countP (fun p => isFulfilled p.2) := by
  induction l with
  | nil => intro idx; simp [referenceBlocksGo]
  | cons hd tl ih =>
    intro idx
    obtain ⟨res, oc⟩ := hd
    cases oc with
    | fulfilled md => simp [referenceBlocksGo, ih, List.countP_cons, isFulfilled]
    | rejected => simp [referenceBlocksGo, ih, List.countP_cons, isFulfilled]

theorem referenceBlocksGo_get (l : List (SearchResult × TaskOutcome)) :
    ∀ idx i res md, l.get? i = some (res, TaskOutcome.fulfilled md) →
      (referenceBlocksGo idx l).get? ((l.take i).countP (fun p => isFulfilled p.2)) =
        some (renderRef (idx + i) res md) := by
  induction l with
  | nil => intro idx i res md h; simp at h
  | cons hd tl ih =>
    intro idx i res md h
    obtain ⟨r0, oc0⟩ := hd
    cases i with
    | zero =>
      simp only [List.get?_cons_zero, Option.some.injEq, Prod.mk.injEq] at h
      obtain ⟨h1, h2⟩ := h
      subst h1
      subst h2
      simp [referenceBlocksGo]
    | succ n =>
      simp only [List.get?_cons_succ] at h
      have ihn := ih (idx + 1) n res md h
      cases oc0 with
      | fulfilled md0 =>
        simpa [referenceBlocksGo, List.countP_cons, isFulfilled,
          Nat.add_assoc, Nat.add_comm 1 n] using ihn
      | rejected =>
        simpa [referenceBlocksGo, List.countP_cons, isFulfilled,
          Nat.add_assoc, Nat.add_comm 1 n] using ihn

theorem countP_zip_snd (p : TaskOutcome → Bool) (as : List SearchResult) :
    ∀ bs : List TaskOutcome, bs.length = as.length →
      (as.zip bs).countP (fun q => p q.2) = bs.countP p := by
  induction as with
  | nil =>
    intro bs h
    rw [List.length_eq_zero.mp h]
    rfl
  | cons a tl ih =>
    intro bs h
    cases bs with
    | nil => simp at h
    | cons b bs =>
      simp only [List.zip_cons_cons, List.countP_cons]
      rw [ih bs (by simpa using h)]

theorem countP_isFulfilled_add (outcomes : List TaskOutcome) :
    outcomes.countP isFulfilled + rejectedCount outcomes = outcomes.length := by
  unfold rejectedCount
  induction outcomes with
  | nil => rfl
  | cons o tl ih =>
    rw [List.countP_cons, List.countP_cons, List.length_cons]
    cases o with
    | fulfilled md =>
      rw [show isFulfilled (TaskOutcome.fulfilled md) = true from rfl,
        show isRejected (TaskOutcome.fulfilled md) = false from rfl]
      simp only [if_true, if_false, Bool.false_eq_true, ite_true, ite_false]
      omega
    | rejected =>
      rw [show isFulfilled TaskOutcome.rejected = false from rfl,
        show isRejected TaskOutcome.rejected = true from rfl]
      simp only [if_true, if_false, Bool.false_eq_true, ite_true, ite_false]
      omega

/-- Claim C1 (corrected: surviving blocks keep their input's original
1-based rank number, so the numbering skips over failed tasks instead of
running 1..(N−K) consecutively — see `skipNumberingCex`): with
`outcomes.length = results.length = N` of which `K` tasks rejected, the
assembled reference-block list has exactly `N − K` blocks; the block of the
input at rank position `i` (0-based) appears — whenever that task fulfilled —
at output position "number of fulfilled tasks before `i`", so blocks keep the
original rank order, and it is rendered with the printed number `i + 1`.
The aggregation is a total function, so no input — including `K = N` —
raises an error. -/
theorem referenceBlocks_count_order_numbering (results : List SearchResult)
    (outcomes : List TaskOutcome) (h : outcomes.length = results.length) :
    (referenceBlocks results outcomes).length = results.length - rejectedCount outcomes ∧
    (∀ i res md, results.get? i = some res →
      outcomes.get? i = some (TaskOutcome.fulfilled md) →
      (referenceBlocks results outcomes).get? ((outcomes.take i).countP isFulfilled) =
        some (renderRef i res md)) := by
  constructor
  · rw [referenceBlocks, referenceBlocksGo_length _ 0,
      countP_zip_snd isFulfilled results outcomes h]
    have hsplit := countP_isFulfilled_add outcomes
    rw [← h]
    omega
  · intro i res md hres hoc
    have hzip : (results.zip outcomes).get? i = some (res, TaskOutcome.fulfilled md) := by
      rw [List.get?_zip_eq_some]
      exact ⟨hres, hoc⟩
    have hkey := referenceBlocksGo_get (results.zip outcomes) 0 i res md hzip
    rw [referenceBlocks]
    have hi_res : i < results.length := by
      by_contra hlt
      rw [List.get?_eq_none.mpr (Nat.le_of_not_lt hlt)] at hres
      exact Option.noConfusion hres
    have hi_oc : i < outcomes.length := by
      by_contra hlt
      rw [List.get?_eq_none.mpr (Nat.le_of_not_lt hlt)] at hoc
      exact Option.noConfusion hoc
    have htake : (results.zip outcomes).take i = (results.take i).zip (outcomes.take i) := by
      simp [List.zip, List.take_zipWith]
    have hcnt : ((results.zip outcomes).take i).countP (fun p => isFulfilled p.2) =
        (outcomes.take i).countP isFulfilled := by
      rw [htake]
      exact countP_zip_snd isFulfilled (results.take i) (outcomes.take i)
        (by simp [List.length_take]; omega)
    rw [← hcnt]
    simpa using hkey

/-- Witness for C1 (amended): two inputs, first task rejected, second
fulfilled — one block, located at output position 0 and numbered `#2`. -/
theorem referenceBlocks_count_order_numbering_witness :
    (referenceBlocks [⟨"t1", "u1", "s1"⟩, ⟨"t2", "u2", "s2"⟩]
        [TaskOutcome.rejected, TaskOutcome.fulfilled (some "md2")]).length = 2 - 1 ∧
    (referenceBlocks [⟨"t1", "u1", "s1"⟩, ⟨"t2", "u2", "s2"⟩]
        [TaskOutcome.rejected, TaskOutcome.fulfilled (some "md2")]).get?
        (([TaskOutcome.rejected, TaskOutcome.fulfilled (some "md2")].take 1).countP
          isFulfilled) = some (renderRef 1 ⟨"t2", "u2", "s2"⟩ (some "md2")) := by
  have hmain := referenceBlocks_count_order_numbering
    [⟨"t1", "u1", "s1"⟩, ⟨"t2", "u2", "s2"⟩]
    [TaskOutcome.rejected, TaskOutcome.fulfilled (some "md2")] rfl
  exact ⟨hmain.1, hmain.2 1 ⟨"t2", "u2", "s2"⟩ (some "md2") rfl rfl⟩

/-- Counterexample to C1 as stated: two inputs, the first task rejects —
the single surviving block is rendered with number `#2` (its original rank),
not renumbered to `#1` as "numbered 1..(N−K) consecutively" requires. -/
theorem skipNumberingCex :
    referenceBlocks [⟨"t1", "u1", "s1"⟩, ⟨"t2", "u2", "s2"⟩]
        [TaskOutcome.rejected, TaskOutcome.fulfilled (some "md2")] =
      [renderRef 1 ⟨"t2", "u2", "s2"⟩ (some "md2")] ∧
    renderRef 1 ⟨"t2", "u2", "s2"⟩ (some "md2") =
      "[Result #2]\nTitle: t2\nURL: u2\nSnippet: s2\nFull Content (Excerpt): md2\n" ∧
    renderRef 0 ⟨"t2", "u2", "s2"⟩ (some "md2") =
      "[Result #1]\nTitle: t2\nURL: u2\nSnippet: s2\nFull Content (Excerpt): md2\n" ∧
    ("[Result #2]\nTitle: t2\nURL: u2\nSnippet: s2\nFull Content (Excerpt): md2\n" : String) ≠
      "[Result #1]\nTitle: t2\nURL: u2\nSnippet: s2\nFull Content (Excerpt): md2\n" := by
  refine ⟨rfl, ?_, ?_, by decide⟩ <;>
  · simp only [renderRef, enrichedContent]
    rw [String.take_eq]
    decide

theorem keepAliveGo_zero (s r fuel : Nat) (h : r ≤ s + 15000) :
    keepAliveGo s r fuel = 0 := by
  cases fuel with
  | zero => rfl
  | succ f => simp [keepAliveGo, h]

theorem keepAlives_one (s r : Nat) (h1 : s + 15000 < r) (h2 : r ≤ s + 30000) :
    keepAlivesDuringRead s r = 1 := by
  unfold keepAlivesDuringRead
  have hf : r - s = (r - s - 2) + 2 := by omega
  rw [hf]
  rw [show keepAliveGo s r ((r - s - 2) + 2) =
      if r ≤ s + 15000 then 0 else keepAliveGo (s + 15000) r ((r - s - 2) + 1) + 1 from rfl]
  rw [if_neg (by omega)]
  rw [keepAliveGo_zero (s + 15000) r ((r - s - 2) + 1) (by omega)]

theorem filterMap_relayedData_keepAlives (n : Nat) :
    (List.replicate n (Action.emit Frame.keepAlive)).filterMap relayedData = [] := by
  induction n with
  | zero => rfl
  | succ m ih => simp [List.replicate_succ, List.filterMap_cons, relayedData, ih]

/-- Every upstream chunk appears exactly once, in order, among the relayed
frames: the keep-alive races lose no byte and duplicate none. -/
theorem relayActions_data (chunks : List (Nat × String)) :
    ∀ now, (relayActions now chunks).filterMap relayedData = chunks.map Prod.snd := by
  induction chunks with
  | nil => intro now; rfl
  | cons c rest ih =>
    intro now
    obtain ⟨r, d⟩ := c
    simp [relayActions, List.filterMap_append, List.filterMap_cons,
      filterMap_relayedData_keepAlives, relayedData, ih]

/-- Claim C2 (corrected: "exactly one keep-alive" needs the stall to end
within the next 15-second window, as in the 16-second scenario — a longer
stall emits one keep-alive per expired window, see `twoKeepAlivesCex`): a
read pending at race-start `now` whose chunk arrives strictly after the
15-second timer but within 30 seconds produces exactly one keep-alive frame
followed by the delayed chunk itself; the pending read is not abandoned —
the loop resumes from the chunk's arrival time with the remaining chunks,
and the relayed frames carry every upstream chunk exactly once, in order. -/
theorem relay_one_keepalive_no_loss (now r : Nat) (d : String)
    (rest : List (Nat × String)) (h1 : now + 15000 < r) (h2 : r ≤ now + 30000) :
    relayActions now ((r, d) :: rest) =
      Action.emit Frame.keepAlive :: Action.emit (Frame.relayed d) ::
        relayActions r rest ∧
    (relayActions now ((r, d) :: rest)).filterMap relayedData =
      d :: rest.map Prod.snd := by
  have hmax : max now r = r := Nat.max_eq_right (by omega)
  constructor
  · rw [show relayActions now ((r, d) :: rest) =
        List.replicate (keepAlivesDuringRead now (max now r)) (Action.emit Frame.keepAlive) ++
          Action.emit (Frame.relayed d) :: relayActions (max now r) rest from rfl]
    rw [hmax, keepAlives_one now r h1 h2]
    rfl
  · rw [relayActions_data ((r, d) :: rest) now]
    rfl

/-- Witness for C2 (amended): the 16-second stall of scenario D. -/
theorem relay_one_keepalive_no_loss_witness :
    relayActions 0 [(16000, "chunk")] =
      Action.emit Frame.keepAlive :: Action.emit (Frame.relayed "chunk") ::
        relayActions 16000 [] ∧
    (relayActions 0 [(16000, "chunk")]).filterMap relayedData =
      "chunk" :: List.map Prod.snd ([] : List (Nat × String)) :=
  relay_one_keepalive_no_loss 0 16000 "chunk" [] (by omega) (by omega)

/-- Counterexample to C2 as stated: a 31-second stall emits two keep-alive
frames before the delayed chunk, not exactly one. -/
theorem twoKeepAlivesCex :
    relayActions 0 [(31000, "x")] =
      [Action.emit Frame.keepAlive, Action.emit Frame.keepAlive,
        Action.emit (Frame.relayed "x")] ∧
    (relayActions 0 [(31000, "x")]).countP
      (fun a => a == Action.emit Frame.keepAlive) = 2 := by
  constructor
  · decide
  · decide

theorem countP_callExtract_map (p : Action → Bool)
    (hp : ∀ u, p (Action.callExtract u) = false) (l : List SearchResult) :
    (l.map (fun r => Action.callExtract r.link)).countP p = 0 := by
  induction l with
  | nil => rfl
  | cons a tl ih => simp [List.countP_cons, hp, ih]

theorem countP_keepAlives (p : Action → Bool)
    (hp : p (Action.emit Frame.keepAlive) = false) (n : Nat) :
    (List.replicate n (Action.emit Frame.keepAlive)).countP p = 0 := by
  induction n with
  | zero => rfl
  | succ m ih => simp [List.replicate_succ, List.countP_cons, hp, ih]

theorem relayActions_countP (p : Action → Bool)
    (hka : p (Action.emit Frame.keepAlive) = false)
    (hrel : ∀ d, p (Action.emit (Frame.relayed d)) = false)
    (chunks : List (Nat × String)) :
    ∀ now, (relayActions now chunks).countP p = 0 := by
  induction chunks with
  | nil => intro now; rfl
  | cons c rest ih =>
    intro now
    obtain ⟨r, d⟩ := c
    simp [relayActions, List.countP_append, List.countP_cons, hka, hrel,
      countP_keepAlives p hka, ih]

theorem handlerPre_countP (p : Action → Bool)
    (h1 : ∀ k, p (Action.emit (Frame.status (searchBanner k))) = false)
    (h2 : p (Action.emit (Frame.status noSearchKeyWarning)) = false)
    (h3 : ∀ n, p (Action.emit (Frame.status (captureBanner n))) = false)
    (h4 : p (Action.emit (Frame.status doneBanner)) = false)
    (h5 : p (Action.emit (Frame.status noDataWarning)) = false)
    (hcs : p Action.callSearch = false)
    (hce : ∀ u, p (Action.callExtract u) = false) (env : Env) :
    (handlerPre env).countP p = 0 := by
  unfold handlerPre midActions
  cases h : handlerSearchResults env with
  | none =>
    by_cases hk : env.serperKey = "" <;>
      simp only [hk, if_true, if_false, ite_true, ite_false, eq_self_iff_true,
        List.countP_cons, List.countP_append, List.countP_nil,
        h1, h2, h5, hcs, Bool.false_eq_true, Nat.add_zero, Nat.zero_add]
  | some results =>
    by_cases hk : env.serperKey = "" <;>
      by_cases hl : 0 < results.length <;>
        simp only [hk, hl, if_true, if_false, ite_true, ite_false, eq_self_iff_true,
          List.countP_cons, List.countP_append, List.countP_nil,
          h1, h2, h3, h4, h5, hcs, countP_callExtract_map p hce,
          Bool.false_eq_true, Nat.add_zero, Nat.zero_add]

theorem handlerPre_countP_isClose (env : Env) :
    (handlerPre env).countP isClose = 0 :=
  handlerPre_countP isClose (fun _ => rfl) rfl (fun _ => rfl) rfl rfl rfl
    (fun _ => rfl) env

/-- Claim C3 (confirmed): on every path of the stream body — missing
keyword, failed AI handshake, graceful end-of-upstream, mid-relay error —
the observable trace contains exactly one (successful) close of the output
stream: the second `controller.close()` reached on the early-return paths
throws on the already-closed controller and is swallowed by the `finally`
block's `try`/`catch`. -/
theorem stream_closes_exactly_once (env : Env) :
    (handlerStream env).countP isClose = 1 := by
  unfold handlerStream handlerBody
  by_cases hk : env.keyword = ""
  · simp [hk, List.countP_cons, isClose]
  · cases hu : env.upstream with
    | handshakeFail st b =>
      simp [hk, List.countP_append, List.countP_cons, isClose,
        handlerPre_countP_isClose]
    | stream chunks midErr =>
      cases midErr <;>
        simp [hk, List.countP_append, List.countP_cons, isClose,
          handlerPre_countP_isClose,
          relayActions_countP isClose rfl (fun _ => rfl) chunks 0]

/-- Claim C9 (confirmed): on a request without a keyword the stream consists
of exactly one status frame (the missing-keyword error) followed by the
close, with no call to the search, extraction or AI provider. -/
theorem missing_keyword_no_calls (env : Env) (hk : env.keyword = "") :
    handlerStream env = [Action.emit (Frame.status missingKeywordMsg), Action.close] ∧
    (handlerStream env).countP isProviderCall = 0 ∧
    (handlerStream env).countP isClose = 1 := by
  have h : handlerStream env =
      [Action.emit (Frame.status missingKeywordMsg), Action.close] := by
    unfold handlerStream handlerBody
    simp [hk]
  refine ⟨h, ?_, ?_⟩ <;> rw [h] <;> rfl

/-- Witness for C9: the concrete empty-keyword environment. -/
theorem missing_keyword_no_calls_witness :
    handlerStream ⟨"", "sk", SerperOutcome.exn, UpstreamOutcome.stream [] none⟩ =
      [Action.emit (Frame.status missingKeywordMsg), Action.close] ∧
    (handlerStream ⟨"", "sk", SerperOutcome.exn, UpstreamOutcome.stream [] none⟩).countP
      isProviderCall = 0 ∧
    (handlerStream ⟨"", "sk", SerperOutcome.exn, UpstreamOutcome.stream [] none⟩).countP
      isClose = 1 :=
  missing_keyword_no_calls ⟨"", "sk", SerperOutcome.exn, UpstreamOutcome.stream [] none⟩ rfl

theorem head_append_of_head (a s : String) (c : Char) (h : a.data.head? = some c) :
    (a ++ s).data.head? = some c := by
  cases a with
  | mk l =>
    cases l with
    | nil => simp at h
    | cons x xs =>
      simp only [List.head?_cons, Option.some.injEq] at h
      subst h
      cases s with
      | mk m => rfl

theorem isErr_false_of_gt (t : String) (h : t.data.head? = some '>') :
    isErrorStatusFrame (Action.emit (Frame.status t)) = false := by
  simp only [isErrorStatusFrame]
  rw [h]
  rfl

/-- Every status frame emitted before the AI stage is a progress banner
starting with the character `>`, hence not an error status frame. -/
theorem handlerPre_status_all_banners (t : String) :
    isErrorStatusFrame (Action.emit (Frame.status (searchBanner t))) = false ∧
    isErrorStatusFrame (Action.emit (Frame.status noSearchKeyWarning)) = false ∧
    (∀ n, isErrorStatusFrame (Action.emit (Frame.status (captureBanner n))) = false) ∧
    isErrorStatusFrame (Action.emit (Frame.status doneBanner)) = false ∧
    isErrorStatusFrame (Action.emit (Frame.status noDataWarning)) = false := by
  refine ⟨?_, ?_, fun n => ?_, ?_, ?_⟩
  · exact isErr_false_of_gt _ (head_append_of_head _ _ '>' rfl)
  · exact isErr_false_of_gt _ rfl
  · exact isErr_false_of_gt _ (head_append_of_head _ _ '>' rfl)
  · exact isErr_false_of_gt _ rfl
  · exact isErr_false_of_gt _ rfl

theorem handlerPre_countP_isErr (env : Env) :
    (handlerPre env).countP isErrorStatusFrame = 0 :=
  handlerPre_countP isErrorStatusFrame
    (fun k => (handlerPre_status_all_banners k).1)
    (handlerPre_status_all_banners "").2.1
    (fun n => (handlerPre_status_all_banners "").2.2.1 n)
    (handlerPre_status_all_banners "").2.2.2.1
    (handlerPre_status_all_banners "").2.2.2.2
    rfl (fun _ => rfl) env

/-- Claim C6 (confirmed): when the AI handshake response is not successful,
the trace is the pre-AI banners and provider calls, the single AI call, one
error status frame carrying the status code and the response body text, and
the stream close; that frame is the only error status frame of the whole
trace, and no further AI call occurs. -/
theorem ai_handshake_error_single_frame (env : Env) (hk : ¬env.keyword = "")
    (st : Nat) (b : String) (hu : env.upstream = .handshakeFail st b) :
    handlerStream env =
      handlerPre env ++
        [Action.callAI, Action.emit (Frame.status (aiErrorMsg st b)), Action.close] ∧
    (handlerStream env).countP isErrorStatusFrame = 1 ∧
    isErrorStatusFrame (Action.emit (Frame.status (aiErrorMsg st b))) = true ∧
    aiErrorMsg st b = "\n\n❌ **AI Error**: " ++ (toString st ++ ("\n" ++ b)) := by
  have htr : handlerStream env =
      handlerPre env ++
        [Action.callAI, Action.emit (Frame.status (aiErrorMsg st b)), Action.close] := by
    unfold handlerStream handlerBody
    simp [hk, hu]
  have hh : (aiErrorMsg st b).data.head? = some '\n' := by
    rw [aiErrorMsg]
    exact head_append_of_head _ _ '\n' rfl
  have herr : isErrorStatusFrame (Action.emit (Frame.status (aiErrorMsg st b))) = true := by
    simp only [isErrorStatusFrame]
    rw [hh]
    rfl
  refine ⟨htr, ?_, herr, rfl⟩
  rw [htr, List.countP_append, handlerPre_countP_isErr]
  simp [List.countP_cons, herr, isErrorStatusFrame, hh]

/-- Witness for C6: scenario C — status 500, body "internal error". -/
theorem ai_handshake_error_single_frame_witness :
    handlerStream ⟨"kw", "", SerperOutcome.exn,
        UpstreamOutcome.handshakeFail 500 "internal error"⟩ =
      handlerPre ⟨"kw", "", SerperOutcome.exn,
          UpstreamOutcome.handshakeFail 500 "internal error"⟩ ++
        [Action.callAI,
          Action.emit (Frame.status (aiErrorMsg 500 "internal error")), Action.close] ∧
    (handlerStream ⟨"kw", "", SerperOutcome.exn,
        UpstreamOutcome.handshakeFail 500 "internal error"⟩).countP
      isErrorStatusFrame = 1 ∧
    isErrorStatusFrame (Action.emit (Frame.status (aiErrorMsg 500 "internal error"))) = true ∧
    aiErrorMsg 500 "internal error" =
      "\n\n❌ **AI Error**: " ++ (toString 500 ++ ("\n" ++ "internal error")) :=
  ai_handshake_error_single_frame ⟨"kw", "", SerperOutcome.exn,
    UpstreamOutcome.handshakeFail 500 "internal error"⟩ (by decide) 500 "internal error" rfl

end IntentApi
